import Mathlib

/-!
# Rubygame TTF binding (`ext/rubygame/ttf.c`)

A shallow embedding of the C functions of `ttf.c` and proofs about them.

Conventions of the embedding:

* a Ruby `VALUE` is the machine word the C code sees, a `Nat`; the C tests
  `if(v)` and `!v` are `v ≠ 0` and `v = 0`;
* a C `int` holding a bit mask (the font style) is its bit pattern, a `Nat`;
* the native libraries (SDL_ttf, SDL) and the Ruby C API are not part of the
  file: the native state the code reads and writes is explicit, every native
  call is appended to a log in call order, and what a native call or a Ruby
  conversion returns on given arguments is a parameter.
-/

namespace Rubygame

/-! ## Ruby values and native constants -/

/-- A Ruby `VALUE`, the machine word passed to and returned by the C functions. -/
abbrev VALUE := Nat

/-- The word `Qfalse` of `ruby.h`; it is the only `VALUE` that C treats as false. -/
def Qfalse : VALUE := 0

/-- The word `Qtrue` of `ruby.h`. -/
def Qtrue : VALUE := 2

/-- The word `Qnil` of `ruby.h`. -/
def Qnil : VALUE := 4

/-- Style bit `TTF_STYLE_BOLD` of `SDL_ttf.h`. -/
def TTF_STYLE_BOLD : Nat := 0x01

/-- Style bit `TTF_STYLE_ITALIC` of `SDL_ttf.h`. -/
def TTF_STYLE_ITALIC : Nat := 0x02

/-- Style bit `TTF_STYLE_UNDERLINE` of `SDL_ttf.h`. -/
def TTF_STYLE_UNDERLINE : Nat := 0x04

/-- An `SDL_Color`: the three 8-bit channels the binding fills in. -/
structure SDL_Color where
  r : Nat
  g : Nat
  b : Nat
deriving DecidableEq, Repr

/-- The native font behind a `TTF` object, as far as the binding observes it:
the style word that `TTF_GetFontStyle` reads and `TTF_SetFontStyle` writes. -/
structure TTF_Font where
  style : Nat
deriving DecidableEq, Repr

/-- The part of an `SDL_Surface` the binding touches: the palette and the
colour key (`none` when the surface has no `SDL_SRCCOLORKEY` flag). -/
structure SDL_Surface where
  palette : List SDL_Color
  colorkey : Option Nat
deriving DecidableEq, Repr

/-- One call into the native libraries, with the arguments the binding passed.
A surface argument is `none` when the C pointer is `NULL`. -/
inductive NativeCall where
  | TTF_WasInit
  | TTF_Quit
  | TTF_GetError
  | TTF_OpenFont (file : String) (ptsize : Int)
  | TTF_GetFontStyle
  | TTF_SetFontStyle (style : Nat)
  | TTF_RenderText_Solid (text : String) (fg : SDL_Color)
  | TTF_RenderText_Shaded (text : String) (fg bg : SDL_Color)
  | TTF_RenderText_Blended (text : String) (fg : SDL_Color)
  | SDL_SetColors (surface : Option SDL_Surface) (colors : List SDL_Color)
      (firstcolor ncolors : Nat)
  | SDL_SetColorKey (surface : Option SDL_Surface) (flag key : Nat)
deriving DecidableEq, Repr

/-! ## Style accessors -/

/-- Native `TTF_GetFontStyle`: the font's style word. -/
def TTF_GetFontStyle (font : TTF_Font) : Nat := font.style

/-- Native `TTF_SetFontStyle`: stores the style word in the font. -/
def TTF_SetFontStyle (font : TTF_Font) (style : Nat) : TTF_Font :=
  { font with style := style }

/-- What a style setter leaves behind: the returned `VALUE`, the font after
the call and the native calls made, in order. -/
structure SetResult where
  ret : VALUE
  font : TTF_Font
  calls : List NativeCall
deriving DecidableEq, Repr

/-- `rbgm_ttf_getbold` (ttf.c 123-134); `self` is the font that
`Data_Get_Struct` takes out of the Ruby object. -/
def rbgm_ttf_getbold (self : TTF_Font) : VALUE :=
  let style := TTF_GetFontStyle self
  if (style &&& TTF_STYLE_BOLD) = TTF_STYLE_BOLD then Qtrue else Qfalse

/-- `rbgm_ttf_setbold` (ttf.c 141-163). -/
def rbgm_ttf_setbold (self : TTF_Font) (bold : VALUE) : SetResult :=
  let style := TTF_GetFontStyle self
  if (style &&& TTF_STYLE_BOLD) = TTF_STYLE_BOLD ∧ bold = 0 then
    { ret := Qtrue
      font := TTF_SetFontStyle self (style ^^^ TTF_STYLE_BOLD)
      calls := [.TTF_GetFontStyle, .TTF_SetFontStyle (style ^^^ TTF_STYLE_BOLD)] }
  else if bold ≠ 0 then
    { ret := Qfalse
      font := TTF_SetFontStyle self (style ||| TTF_STYLE_BOLD)
      calls := [.TTF_GetFontStyle, .TTF_SetFontStyle (style ||| TTF_STYLE_BOLD)] }
  else
    { ret := bold, font := self, calls := [.TTF_GetFontStyle] }

/-- `rbgm_ttf_getitalic` (ttf.c 170-181). -/
def rbgm_ttf_getitalic (self : TTF_Font) : VALUE :=
  let style := TTF_GetFontStyle self
  if (style &&& TTF_STYLE_ITALIC) = TTF_STYLE_ITALIC then Qtrue else Qfalse

/-- `rbgm_ttf_setitalic` (ttf.c 188-210). -/
def rbgm_ttf_setitalic (self : TTF_Font) (italic : VALUE) : SetResult :=
  let style := TTF_GetFontStyle self
  if (style &&& TTF_STYLE_ITALIC) = TTF_STYLE_ITALIC ∧ italic = 0 then
    { ret := Qtrue
      font := TTF_SetFontStyle self (style ^^^ TTF_STYLE_ITALIC)
      calls := [.TTF_GetFontStyle, .TTF_SetFontStyle (style ^^^ TTF_STYLE_ITALIC)] }
  else if italic ≠ 0 then
    { ret := Qfalse
      font := TTF_SetFontStyle self (style ||| TTF_STYLE_ITALIC)
      calls := [.TTF_GetFontStyle, .TTF_SetFontStyle (style ||| TTF_STYLE_ITALIC)] }
  else
    { ret := italic, font := self, calls := [.TTF_GetFontStyle] }

/-- `rbgm_ttf_getunderline` (ttf.c 217-228). -/
def rbgm_ttf_getunderline (self : TTF_Font) : VALUE :=
  let style := TTF_GetFontStyle self
  if (style &&& TTF_STYLE_UNDERLINE) = TTF_STYLE_UNDERLINE then Qtrue else Qfalse

/-- `rbgm_ttf_setunderline` (ttf.c 235-257). -/
def rbgm_ttf_setunderline (self : TTF_Font) (underline : VALUE) : SetResult :=
  let style := TTF_GetFontStyle self
  if (style &&& TTF_STYLE_UNDERLINE) = TTF_STYLE_UNDERLINE ∧ underline = 0 then
    { ret := Qtrue
      font := TTF_SetFontStyle self (style ^^^ TTF_STYLE_UNDERLINE)
      calls := [.TTF_GetFontStyle, .TTF_SetFontStyle (style ^^^ TTF_STYLE_UNDERLINE)] }
  else if underline ≠ 0 then
    { ret := Qfalse
      font := TTF_SetFontStyle self (style ||| TTF_STYLE_UNDERLINE)
      calls := [.TTF_GetFontStyle, .TTF_SetFontStyle (style ||| TTF_STYLE_UNDERLINE)] }
  else
    { ret := underline, font := self, calls := [.TTF_GetFontStyle] }

/-! ## The Ruby C API and the native libraries, as parameters -/

/-- The conversions of the Ruby C API that `ttf.c` uses. A conversion either
yields the C value or raises inside Ruby (`Except.error`, with a description of
the exception). `Data_Get_Struct` reads the native font out of a receiver: it
checks that the `VALUE` is a data object and raises when it is not. -/
structure Ruby where
  Data_Get_Struct : VALUE → Except String TTF_Font
  StringValuePtr : VALUE → Except String String
  NUM2INT : VALUE → Except String Int
  NUM2UINT : VALUE → Except String Nat
  rb_ary_entry : VALUE → Int → VALUE

/-- What SDL_ttf answers to the calls of `ttf.c`: `none` is a `NULL` result,
`TTF_GetError` the diagnostic string the library reports. -/
structure SDL_ttf where
  TTF_OpenFont : String → Int → Option TTF_Font
  TTF_RenderText_Solid : TTF_Font → String → SDL_Color → Option SDL_Surface
  TTF_RenderText_Shaded : TTF_Font → String → SDL_Color → SDL_Color → Option SDL_Surface
  TTF_RenderText_Blended : TTF_Font → String → SDL_Color → Option SDL_Surface
  TTF_GetError : String

/-- The process-wide state of SDL_ttf: the flag `TTF_WasInit` reports. -/
structure TTF_State where
  initialized : Bool
deriving DecidableEq, Repr

/-- The exception classes `ttf.c` raises with `rb_raise`. -/
inductive ExcClass where
  | eSDLError
  | rb_eArgError
deriving DecidableEq, Repr

/-- How a call of a C function of the binding ends. -/
inductive Outcome (α : Type) where
  /-- The function returned `v`. -/
  | returned (v : α)
  /-- An `rb_raise` of `ttf.c` itself, with its formatted message. -/
  | raised (cls : ExcClass) (message : String)
  /-- A conversion or a check of the Ruby C API raised. -/
  | conversion (description : String)
  /-- The C code read `argv` at an index `argc` does not cover. -/
  | undefined
deriving DecidableEq, Repr

/-- A finished call: how it ended and the native calls it made, in order. -/
structure Run (α : Type) where
  outcome : Outcome α
  calls : List NativeCall
deriving DecidableEq, Repr

/-- A finished call that may change the library state. -/
structure LibRun (α : Type) where
  outcome : Outcome α
  lib : TTF_State
  calls : List NativeCall
deriving DecidableEq, Repr

/-! ## Library lifecycle -/

/-- Native `TTF_Quit`: afterwards the library is not initialised. -/
def TTF_Quit (lib : TTF_State) : TTF_State := { lib with initialized := false }

/-- `rbgm_ttf_quit` (ttf.c 77-82). -/
def rbgm_ttf_quit (lib : TTF_State) : LibRun VALUE :=
  if lib.initialized then
    { outcome := .returned Qnil, lib := TTF_Quit lib, calls := [.TTF_WasInit, .TTF_Quit] }
  else
    { outcome := .returned Qnil, lib := lib, calls := [.TTF_WasInit] }

/-- `rbgm_ttf_initialize` (ttf.c 113-116). -/
def rbgm_ttf_initialize (self : TTF_Font) : TTF_Font := self

/-- `rbgm_ttf_new` (ttf.c 97-111). The result is the font wrapped by the new
`TTF` object. `argv[0]` and `argv[1]` are read without a check of `argc`; C
leaves the order of the two conversions open, here `argv[0]` is first. -/
def rbgm_ttf_new (rb : Ruby) (ttf : SDL_ttf) (lib : TTF_State) (argv : List VALUE) :
    Run TTF_Font :=
  if ¬ lib.initialized then
    { outcome := .raised .eSDLError "Font module must be initialized before making new font."
      calls := [.TTF_WasInit] }
  else
    match argv[0]?, argv[1]? with
    | some a0, some a1 =>
      match rb.StringValuePtr a0 with
      | .error e => { outcome := .conversion e, calls := [.TTF_WasInit] }
      | .ok file =>
        match rb.NUM2INT a1 with
        | .error e => { outcome := .conversion e, calls := [.TTF_WasInit] }
        | .ok ptsize =>
          match ttf.TTF_OpenFont file ptsize with
          | none =>
            { outcome := .raised .eSDLError ("could not load font: " ++ ttf.TTF_GetError)
              calls := [.TTF_WasInit, .TTF_OpenFont file ptsize, .TTF_GetError] }
          | some font =>
            { outcome := .returned ( rbgm_ttf_initialize font)
              calls := [.TTF_WasInit, .TTF_OpenFont file ptsize] }
    | _, _ => { outcome := .undefined, calls := [.TTF_WasInit] }

/-! ## Rendering -/

/-- Flag `SDL_SRCCOLORKEY` of `SDL_video.h`. -/
def SDL_SRCCOLORKEY : Nat := 0x00001000

/-- Native `SDL_SetColors`: copies the first `ncolors` entries of `colors` into
the palette from index `firstcolor` on. A `NULL` surface stays `NULL`. -/
def SDL_SetColors (surface : Option SDL_Surface) (colors : List SDL_Color)
    (firstcolor ncolors : Nat) : Option SDL_Surface :=
  surface.map fun s =>
    { s with palette :=
        (colors.take ncolors).enum.foldl (fun p ic => p.set (firstcolor + ic.1) ic.2) s.palette }

/-- Native `SDL_SetColorKey`: sets the colour key when `flag` has
`SDL_SRCCOLORKEY`, removes it otherwise. A `NULL` surface stays `NULL`. -/
def SDL_SetColorKey (surface : Option SDL_Surface) (flag key : Nat) : Option SDL_Surface :=
  surface.map fun s =>
    { s with colorkey := if flag &&& SDL_SRCCOLORKEY ≠ 0 then some key else none }

/-- The three assignments `c.r = NUM2UINT(rb_ary_entry(v,0))`, `c.g = ...`,
`c.b = ...` of ttf.c 337-339 and 343-345; the channels are `Uint8`. -/
def read_color (rb : Ruby) (v : VALUE) : Except String SDL_Color :=
  match rb.NUM2UINT (rb.rb_ary_entry v 0) with
  | .error e => .error e
  | .ok r =>
    match rb.NUM2UINT (rb.rb_ary_entry v 1) with
    | .error e => .error e
    | .ok g =>
      match rb.NUM2UINT (rb.rb_ary_entry v 2) with
      | .error e => .error e
      | .ok b => .ok { r := r % 256, g := g % 256, b := b % 256 }

/-- The native part of `rbgm_ttf_render` (ttf.c 348-369): the surface pointer
`surf` it leaves and the native calls made. -/
def render_native (ttf : SDL_ttf) (font : TTF_Font) (argc : Nat) (antialias : Nat)
    (text : String) (fore back : SDL_Color) : Option SDL_Surface × List NativeCall :=
  if antialias ≠ 0 then
    if argc > 3 then
      (ttf.TTF_RenderText_Shaded font text fore back, [.TTF_RenderText_Shaded text fore back])
    else
      (ttf.TTF_RenderText_Blended font text fore, [.TTF_RenderText_Blended text fore])
  else
    if argc > 3 then
      let colors := [back]
      let surf := ttf.TTF_RenderText_Solid font text fore
      let surf1 := SDL_SetColors surf colors 0 1
      let surf2 := SDL_SetColorKey surf1 0 0
      (surf2, [.TTF_RenderText_Solid text fore, .SDL_SetColors surf colors 0 1,
               .SDL_SetColorKey surf1 0 0])
    else
      (ttf.TTF_RenderText_Solid font text fore, [.TTF_RenderText_Solid text fore])

/-- `rbgm_ttf_render` (ttf.c 324-374); `self` is the receiver, `argc` the
length of `argv`. The result is the surface wrapped by the returned `Surface`
object. The font is read out of the receiver by `Data_Get_Struct` (line 334),
after the test of `argc`. `back` is only assigned, and only read, when
`argc > 3`. `antialias` is the `int` that `argv[1]` is assigned to. -/
def rbgm_ttf_render (rb : Ruby) (ttf : SDL_ttf) (self : VALUE) (argv : List VALUE) :
    Run SDL_Surface :=
  let argc := argv.length
  if argc < 3 then
    { outcome := .raised .rb_eArgError
        ("wrong number of arguments (" ++ toString argc ++ " for 3)")
      calls := [] }
  else
    match rb.Data_Get_Struct self with
    | .error e => { outcome := .conversion e, calls := [] }
    | .ok font =>
      let antialias := argv.getD 1 Qnil % 2 ^ 32
      match read_color rb (argv.getD 2 Qnil) with
      | .error e => { outcome := .conversion e, calls := [] }
      | .ok fore =>
        match (if argc > 3 then read_color rb (argv.getD 3 Qnil) else .ok fore) with
        | .error e => { outcome := .conversion e, calls := [] }
        | .ok back =>
          match rb.StringValuePtr (argv.getD 0 Qnil) with
          | .error e => { outcome := .conversion e, calls := [] }
          | .ok text =>
            let r := render_native ttf font argc antialias text fore back
            match r.1 with
            | none =>
              { outcome := .raised .eSDLError
                  ("could not render font object: " ++ ttf.TTF_GetError)
                calls := r.2 ++ [.TTF_GetError] }
            | some surf => { outcome := .returned surf, calls := r.2 }

/-! ## Registration and version -/

/-- The build configuration: whether `HAVE_SDL_TTF_H` is defined and, for each
version macro, the value `SDL_ttf.h` defines it with (`none` when the header
does not define it). -/
structure Build where
  HAVE_SDL_TTF_H : Bool
  SDL_TTF_MAJOR_VERSION : Option Int
  SDL_TTF_MINOR_VERSION : Option Int
  SDL_TTF_PATCHLEVEL : Option Int
deriving DecidableEq, Repr

/-- `rbgm_ttf_version` (ttf.c 25-52): the Ruby array of the three macros, each
`0` when the header left it undefined (the `#ifndef` blocks). -/
def rbgm_ttf_version (b : Build) : List Int :=
  [b.SDL_TTF_MAJOR_VERSION.getD 0, b.SDL_TTF_MINOR_VERSION.getD 0, b.SDL_TTF_PATCHLEVEL.getD 0]

/-- `rbgm_font_version` (ttf.c 412-418). -/
def rbgm_font_version : List Int := [0, 0, 0]

/-- The C functions that `Rubygame_Init_Font` registers. -/
inductive CFunc where
  | rbgm_ttf_new | rbgm_usable | rbgm_unusable | rbgm_dummy
  | rbgm_ttf_version | rbgm_font_version | rbgm_ttf_setup | rbgm_ttf_quit
  | rbgm_ttf_initialize
  | rbgm_ttf_getbold | rbgm_ttf_setbold
  | rbgm_ttf_getitalic | rbgm_ttf_setitalic
  | rbgm_ttf_getunderline | rbgm_ttf_setunderline
  | rbgm_ttf_height | rbgm_ttf_ascent | rbgm_ttf_descent | rbgm_ttf_lineskip
  | rbgm_ttf_render
deriving DecidableEq, Repr

/-- A Ruby class as far as registration goes: the singleton and the instance
method tables, the most recent definition first; an entry is the method's
name, the C function and the declared arity. -/
structure RClass where
  singleton_methods : List (String × CFunc × Int)
  methods : List (String × CFunc × Int)
deriving DecidableEq, Repr

/-- Ruby `rb_define_singleton_method`. -/
def rb_define_singleton_method (c : RClass) (name : String) (f : CFunc) (argc : Int) : RClass :=
  { c with singleton_methods := (name, f, argc) :: c.singleton_methods }

/-- Ruby `rb_define_method`. -/
def rb_define_method (c : RClass) (name : String) (f : CFunc) (argc : Int) : RClass :=
  { c with methods := (name, f, argc) :: c.methods }

/-- Ruby `rb_define_alias`: `new_name` gets the current definition of `old_name`. -/
def rb_define_alias (c : RClass) (new_name old_name : String) : RClass :=
  match c.methods.lookup old_name with
  | some d => { c with methods := (new_name, d) :: c.methods }
  | none => c

/-- `Rubygame_Init_Font` (ttf.c 376-405 with SDL_ttf, 420-433 without): the
class `cTTF` after the registrations. -/
def Rubygame_Init_Font (b : Build) : RClass :=
  let cTTF : RClass := { singleton_methods := [], methods := [] }
  if b.HAVE_SDL_TTF_H then
    let cTTF := rb_define_singleton_method cTTF "new" .rbgm_ttf_new (-1)
    let cTTF := rb_define_singleton_method cTTF "usable?" .rbgm_usable 0
    let cTTF := rb_define_singleton_method cTTF "version" .rbgm_ttf_version 0
    let cTTF := rb_define_singleton_method cTTF "setup" .rbgm_ttf_setup 0
    let cTTF := rb_define_singleton_method cTTF "quit" .rbgm_ttf_quit 0
    let cTTF := rb_define_method cTTF "initialize" CFunc.rbgm_ttf_initialize (-1)
    let cTTF := rb_define_method cTTF "bold" .rbgm_ttf_getitalic 0
    let cTTF := rb_define_method cTTF "bold=" .rbgm_ttf_setitalic 1
    let cTTF := rb_define_alias cTTF "b" "bold"
    let cTTF := rb_define_alias cTTF "b=" "bold="
    let cTTF := rb_define_method cTTF "italic" .rbgm_ttf_getitalic 0
    let cTTF := rb_define_method cTTF "italic=" .rbgm_ttf_setitalic 1
    let cTTF := rb_define_alias cTTF "i" "italic"
    let cTTF := rb_define_alias cTTF "i=" "italic="
    let cTTF := rb_define_method cTTF "underline" .rbgm_ttf_getunderline 0
    let cTTF := rb_define_method cTTF "underline=" .rbgm_ttf_setunderline 1
    let cTTF := rb_define_alias cTTF "u" "underline"
    let cTTF := rb_define_alias cTTF "u=" "underline="
    let cTTF := rb_define_method cTTF "height" .rbgm_ttf_height 0
    let cTTF := rb_define_method cTTF "ascent" .rbgm_ttf_ascent 0
    let cTTF := rb_define_method cTTF "descent" .rbgm_ttf_descent 0
    let cTTF := rb_define_method cTTF "line_skip" .rbgm_ttf_lineskip 0
    rb_define_method cTTF "render" .rbgm_ttf_render (-1)
  else
    let cTTF := rb_define_singleton_method cTTF "new" .rbgm_dummy (-1)
    let cTTF := rb_define_singleton_method cTTF "usable?" .rbgm_unusable 0
    let cTTF := rb_define_singleton_method cTTF "version" .rbgm_font_version 0
    let cTTF := rb_define_singleton_method cTTF "setup" .rbgm_dummy (-1)
    let cTTF := rb_define_singleton_method cTTF "quit" .rbgm_dummy (-1)
    rb_define_method cTTF "initialize" .rbgm_dummy (-1)

/-- Calling the singleton method `version` of the registered class: the array
returned by whichever version function is registered, `none` if there is none. -/
def call_version (b : Build) : Option (List Int) :=
  match (Rubygame_Init_Font b).singleton_methods.lookup "version" with
  | some (.rbgm_ttf_version, _) => some (rbgm_ttf_version b)
  | some (.rbgm_font_version, _) => some rbgm_font_version
  | _ => none

/-- Calling the instance method `name` without arguments on a `TTF` object
wrapping `self`, for the style getters: the returned `VALUE`, `none` if the
name is not registered to a style getter. -/
def call_getter (c : RClass) (name : String) (self : TTF_Font) : Option VALUE :=
  match c.methods.lookup name with
  | some (.rbgm_ttf_getbold, _) => some (rbgm_ttf_getbold self)
  | some (.rbgm_ttf_getitalic, _) => some (rbgm_ttf_getitalic self)
  | some (.rbgm_ttf_getunderline, _) => some (rbgm_ttf_getunderline self)
  | _ => none

/-! ## Sample environments

Concrete parameters on which the theorems below are instantiated. -/

/-- A small Ruby heap. Odd words are Fixnums (`2n+1` for `n`), word `100` is
the empty string, word `104` the string `"hi"`, words `200`, `204` and `208`
the arrays `[0,0,0]`, `[255,255,255]` and `[255,0,0]`, word `300` a `TTF`
object whose font has no style bit set; a conversion of anything else raises,
and so does reading a font out of anything but word `300`. -/
def sample_ruby : Ruby where
  Data_Get_Struct v := if v = 300 then .ok ⟨0⟩ else .error "TypeError"
  StringValuePtr v :=
    if v = 100 then .ok "" else if v = 104 then .ok "hi" else .error "TypeError"
  NUM2INT v := if v % 2 = 1 then .ok (Int.ofNat (v / 2)) else .error "TypeError"
  NUM2UINT v := if v % 2 = 1 then .ok (v / 2) else .error "TypeError"
  rb_ary_entry v i :=
    if v = 200 ∧ 0 ≤ i ∧ i < 3 then 1
    else if v = 204 ∧ 0 ≤ i ∧ i < 3 then 511
    else if v = 208 ∧ i = 0 then 511
    else if v = 208 ∧ 0 < i ∧ i < 3 then 1
    else Qnil

/-- An SDL_ttf that opens no font file and renders every text but the empty
one, for which the render calls return `NULL`. A solid render gives a
two-colour surface: index `0` is the inverse of the foreground and is the
colour key, index `1` the foreground. -/
def sample_ttf : SDL_ttf where
  TTF_OpenFont _ _ := none
  TTF_RenderText_Solid _ text fg :=
    if text = "" then none
    else some { palette := [⟨255 - fg.r, 255 - fg.g, 255 - fg.b⟩, fg], colorkey := some 0 }
  TTF_RenderText_Shaded _ text fg bg :=
    if text = "" then none else some { palette := [bg, fg], colorkey := none }
  TTF_RenderText_Blended _ text _ :=
    if text = "" then none else some { palette := [], colorkey := none }
  TTF_GetError := "native failure"

/-- A build with SDL_ttf whose header defines none of the version macros. -/
def build_without_version_macros : Build :=
  { HAVE_SDL_TTF_H := true
    SDL_TTF_MAJOR_VERSION := none
    SDL_TTF_MINOR_VERSION := none
    SDL_TTF_PATCHLEVEL := none }

/-- A build with SDL_ttf 2.0.6. -/
def build_with_sdl_ttf : Build :=
  { HAVE_SDL_TTF_H := true
    SDL_TTF_MAJOR_VERSION := some 2
    SDL_TTF_MINOR_VERSION := some 0
    SDL_TTF_PATCHLEVEL := some 6 }

/-! ## Facts about bit masks -/

theorem or_and_mask (s m : Nat) : (s ||| m) &&& m = m := by
  apply Nat.eq_of_testBit_eq
  intro i
  simp only [Nat.testBit_and, Nat.testBit_or]
  cases s.testBit i <;> cases m.testBit i <;> rfl

theorem xor_and_mask (s m : Nat) (h : s &&& m = m) : (s ^^^ m) &&& m = 0 := by
  apply Nat.eq_of_testBit_eq
  intro i
  have hi : (s &&& m).testBit i = m.testBit i := by rw [h]
  simp only [Nat.testBit_and] at hi
  simp only [Nat.testBit_and, Nat.testBit_xor, Nat.zero_testBit]
  revert hi
  cases s.testBit i <;> cases m.testBit i <;> simp

theorem or_testBit_off (s m i : Nat) (h : m.testBit i = false) :
    (s ||| m).testBit i = s.testBit i := by
  simp [Nat.testBit_or, h]

theorem xor_testBit_off (s m i : Nat) (h : m.testBit i = false) :
    (s ^^^ m).testBit i = s.testBit i := by
  simp [Nat.testBit_xor, h]


theorem or_and_disjoint (s m k : Nat) (h : m &&& k = 0) : (s ||| m) &&& k = s &&& k := by
  apply Nat.eq_of_testBit_eq
  intro i
  have hi : (m &&& k).testBit i = false := by rw [h]; exact Nat.zero_testBit i
  simp only [Nat.testBit_and] at hi
  simp only [Nat.testBit_and, Nat.testBit_or]
  revert hi
  cases s.testBit i <;> cases m.testBit i <;> cases k.testBit i <;> simp

theorem xor_and_disjoint (s m k : Nat) (h : m &&& k = 0) : (s ^^^ m) &&& k = s &&& k := by
  apply Nat.eq_of_testBit_eq
  intro i
  have hi : (m &&& k).testBit i = false := by rw [h]; exact Nat.zero_testBit i
  simp only [Nat.testBit_and] at hi
  simp only [Nat.testBit_and, Nat.testBit_xor]
  revert hi
  cases s.testBit i <;> cases m.testBit i <;> cases k.testBit i <;> simp

/-- The style word a setter for mask `m` leaves, in its three branches. -/
theorem frame_cases (s m k : Nat) (h : m &&& k = 0) (t : Nat)
    (ht : t = s ^^^ m ∨ t = s ||| m ∨ t = s) : t &&& k = s &&& k := by
  rcases ht with ht | ht | ht <;> subst ht
  · exact xor_and_disjoint s m k h
  · exact or_and_disjoint s m k h
  · rfl

theorem testBit_cases (s m i : Nat) (h : m.testBit i = false) (t : Nat)
    (ht : t = s ^^^ m ∨ t = s ||| m ∨ t = s) : t.testBit i = s.testBit i := by
  rcases ht with ht | ht | ht <;> subst ht
  · exact xor_testBit_off s m i h
  · exact or_testBit_off s m i h
  · rfl

theorem setbold_style (self : TTF_Font) (v : VALUE) :
    (rbgm_ttf_setbold self v).font.style = self.style ^^^ TTF_STYLE_BOLD ∨
    (rbgm_ttf_setbold self v).font.style = self.style ||| TTF_STYLE_BOLD ∨
    (rbgm_ttf_setbold self v).font.style = self.style := by
  unfold rbgm_ttf_setbold
  simp only [TTF_GetFontStyle, TTF_SetFontStyle]
  split_ifs <;> simp

theorem setitalic_style (self : TTF_Font) (v : VALUE) :
    (rbgm_ttf_setitalic self v).font.style = self.style ^^^ TTF_STYLE_ITALIC ∨
    (rbgm_ttf_setitalic self v).font.style = self.style ||| TTF_STYLE_ITALIC ∨
    (rbgm_ttf_setitalic self v).font.style = self.style := by
  unfold rbgm_ttf_setitalic
  simp only [TTF_GetFontStyle, TTF_SetFontStyle]
  split_ifs <;> simp

theorem setunderline_style (self : TTF_Font) (v : VALUE) :
    (rbgm_ttf_setunderline self v).font.style = self.style ^^^ TTF_STYLE_UNDERLINE ∨
    (rbgm_ttf_setunderline self v).font.style = self.style ||| TTF_STYLE_UNDERLINE ∨
    (rbgm_ttf_setunderline self v).font.style = self.style := by
  unfold rbgm_ttf_setunderline
  simp only [TTF_GetFontStyle, TTF_SetFontStyle]
  split_ifs <;> simp

/-! ## Style accessors: claims -/

/-- C1 (evaluation at the failing input). With the style bit already set and
the argument `Qtrue`, each getter reports `Qtrue` before the call, yet the
matching setter returns `Qfalse`: the returned value is not the old value. -/
theorem setter_on_set_bit_returns_false :
    (rbgm_ttf_getbold ⟨TTF_STYLE_BOLD⟩ = Qtrue ∧
      (rbgm_ttf_setbold ⟨TTF_STYLE_BOLD⟩ Qtrue).ret = Qfalse) ∧
    (rbgm_ttf_getitalic ⟨TTF_STYLE_ITALIC⟩ = Qtrue ∧
      (rbgm_ttf_setitalic ⟨TTF_STYLE_ITALIC⟩ Qtrue).ret = Qfalse) ∧
    (rbgm_ttf_getunderline ⟨TTF_STYLE_UNDERLINE⟩ = Qtrue ∧
      (rbgm_ttf_setunderline ⟨TTF_STYLE_UNDERLINE⟩ Qtrue).ret = Qfalse) := by
  decide

/-- C2 (evaluation at the failing input). On a font whose style word has the
bold bit only, the method registered as `bold` (and its alias `b`) returns
`Qfalse` although `rbgm_ttf_getbold` returns `Qtrue`; on a font with the
italic bit only it returns `Qtrue`: the public `bold` reads the italic bit. -/
theorem public_bold_reads_italic_bit :
    call_getter (Rubygame_Init_Font build_with_sdl_ttf) "bold" ⟨TTF_STYLE_BOLD⟩ = some Qfalse ∧
    call_getter (Rubygame_Init_Font build_with_sdl_ttf) "b" ⟨TTF_STYLE_BOLD⟩ = some Qfalse ∧
    rbgm_ttf_getbold ⟨TTF_STYLE_BOLD⟩ = Qtrue ∧
    call_getter (Rubygame_Init_Font build_with_sdl_ttf) "bold" ⟨TTF_STYLE_ITALIC⟩ = some Qtrue ∧
    (Rubygame_Init_Font build_with_sdl_ttf).methods.lookup "bold"
      = some (CFunc.rbgm_ttf_getitalic, 0) := by
  decide

/-- C3. Set-then-get round trip: for every font and every argument that is
`Qtrue` or `Qfalse`, each setter followed by its getter on the resulting font
returns the argument, and the style bit of the resulting font is set exactly
when the argument is `Qtrue`. -/
theorem set_then_get (self : TTF_Font) (enabled : VALUE)
    (h : enabled = Qtrue ∨ enabled = Qfalse) :
    (rbgm_ttf_getbold (rbgm_ttf_setbold self enabled).font = enabled ∧
      ((rbgm_ttf_setbold self enabled).font.style &&& TTF_STYLE_BOLD = TTF_STYLE_BOLD
        ↔ enabled = Qtrue)) ∧
    (rbgm_ttf_getitalic (rbgm_ttf_setitalic self enabled).font = enabled ∧
      ((rbgm_ttf_setitalic self enabled).font.style &&& TTF_STYLE_ITALIC = TTF_STYLE_ITALIC
        ↔ enabled = Qtrue)) ∧
    (rbgm_ttf_getunderline (rbgm_ttf_setunderline self enabled).font = enabled ∧
      ((rbgm_ttf_setunderline self enabled).font.style &&& TTF_STYLE_UNDERLINE
        = TTF_STYLE_UNDERLINE ↔ enabled = Qtrue)) := by
  obtain ⟨style⟩ := self
  have hb := xor_and_mask style TTF_STYLE_BOLD
  have hi := xor_and_mask style TTF_STYLE_ITALIC
  have hu := xor_and_mask style TTF_STYLE_UNDERLINE
  have hb1 := or_and_mask style TTF_STYLE_BOLD
  have hi1 := or_and_mask style TTF_STYLE_ITALIC
  have hu1 := or_and_mask style TTF_STYLE_UNDERLINE
  rcases h with h | h <;> subst h
  · simp [rbgm_ttf_getbold, rbgm_ttf_setbold, rbgm_ttf_getitalic, rbgm_ttf_setitalic,
      rbgm_ttf_getunderline, rbgm_ttf_setunderline, TTF_GetFontStyle, TTF_SetFontStyle,
      Qtrue, Qfalse, hb1, hi1, hu1]
  · refine ⟨?_, ?_, ?_⟩
    · by_cases hs : style &&& TTF_STYLE_BOLD = TTF_STYLE_BOLD
      · simp [rbgm_ttf_getbold, rbgm_ttf_setbold, TTF_GetFontStyle, TTF_SetFontStyle,
          Qtrue, Qfalse, hs, hb hs,
          (by decide : ¬ (0 = TTF_STYLE_BOLD))]
      · simp [rbgm_ttf_getbold, rbgm_ttf_setbold, TTF_GetFontStyle, TTF_SetFontStyle,
          Qtrue, Qfalse, hs]
    · by_cases hs : style &&& TTF_STYLE_ITALIC = TTF_STYLE_ITALIC
      · simp [rbgm_ttf_getitalic, rbgm_ttf_setitalic, TTF_GetFontStyle, TTF_SetFontStyle,
          Qtrue, Qfalse, hs, hi hs,
          (by decide : ¬ (0 = TTF_STYLE_ITALIC))]
      · simp [rbgm_ttf_getitalic, rbgm_ttf_setitalic, TTF_GetFontStyle, TTF_SetFontStyle,
          Qtrue, Qfalse, hs]
    · by_cases hs : style &&& TTF_STYLE_UNDERLINE = TTF_STYLE_UNDERLINE
      · simp [rbgm_ttf_getunderline, rbgm_ttf_setunderline, TTF_GetFontStyle,
          TTF_SetFontStyle, Qtrue, Qfalse, hs, hu hs,
          (by decide : ¬ (0 = TTF_STYLE_UNDERLINE))]
      · simp [rbgm_ttf_getunderline, rbgm_ttf_setunderline, TTF_GetFontStyle,
          TTF_SetFontStyle, Qtrue, Qfalse, hs]

/-- C3 at a font with the bold and underline bits set, switching each style on. -/
theorem set_then_get_witness :
    (rbgm_ttf_getbold (rbgm_ttf_setbold ⟨5⟩ Qtrue).font = Qtrue ∧
      ((rbgm_ttf_setbold ⟨5⟩ Qtrue).font.style &&& TTF_STYLE_BOLD = TTF_STYLE_BOLD
        ↔ Qtrue = Qtrue)) ∧
    (rbgm_ttf_getitalic (rbgm_ttf_setitalic ⟨5⟩ Qtrue).font = Qtrue ∧
      ((rbgm_ttf_setitalic ⟨5⟩ Qtrue).font.style &&& TTF_STYLE_ITALIC = TTF_STYLE_ITALIC
        ↔ Qtrue = Qtrue)) ∧
    (rbgm_ttf_getunderline (rbgm_ttf_setunderline ⟨5⟩ Qtrue).font = Qtrue ∧
      ((rbgm_ttf_setunderline ⟨5⟩ Qtrue).font.style &&& TTF_STYLE_UNDERLINE
        = TTF_STYLE_UNDERLINE ↔ Qtrue = Qtrue)) :=
  set_then_get ⟨5⟩ Qtrue (Or.inl rfl)

/-- C10. Each style setter changes at most its own bit: for every font and
every argument, the style word after `rbgm_ttf_setbold` agrees with the one
before on every bit position outside `TTF_STYLE_BOLD`, so the italic and
underline getters answer as before (likewise for the other two setters); and
when the argument is `Qfalse` and the bit is clear, the setter returns with the
font unchanged after the single native call `TTF_GetFontStyle`. -/
theorem setter_frame (self : TTF_Font) (v : VALUE) :
    ((∀ i, TTF_STYLE_BOLD.testBit i = false →
        (rbgm_ttf_setbold self v).font.style.testBit i = self.style.testBit i) ∧
      rbgm_ttf_getitalic (rbgm_ttf_setbold self v).font = rbgm_ttf_getitalic self ∧
      rbgm_ttf_getunderline (rbgm_ttf_setbold self v).font = rbgm_ttf_getunderline self ∧
      (v = Qfalse → self.style &&& TTF_STYLE_BOLD ≠ TTF_STYLE_BOLD →
        rbgm_ttf_setbold self v = ⟨Qfalse, self, [.TTF_GetFontStyle]⟩)) ∧
    ((∀ i, TTF_STYLE_ITALIC.testBit i = false →
        (rbgm_ttf_setitalic self v).font.style.testBit i = self.style.testBit i) ∧
      rbgm_ttf_getbold (rbgm_ttf_setitalic self v).font = rbgm_ttf_getbold self ∧
      rbgm_ttf_getunderline (rbgm_ttf_setitalic self v).font = rbgm_ttf_getunderline self ∧
      (v = Qfalse → self.style &&& TTF_STYLE_ITALIC ≠ TTF_STYLE_ITALIC →
        rbgm_ttf_setitalic self v = ⟨Qfalse, self, [.TTF_GetFontStyle]⟩)) ∧
    ((∀ i, TTF_STYLE_UNDERLINE.testBit i = false →
        (rbgm_ttf_setunderline self v).font.style.testBit i = self.style.testBit i) ∧
      rbgm_ttf_getbold (rbgm_ttf_setunderline self v).font = rbgm_ttf_getbold self ∧
      rbgm_ttf_getitalic (rbgm_ttf_setunderline self v).font = rbgm_ttf_getitalic self ∧
      (v = Qfalse → self.style &&& TTF_STYLE_UNDERLINE ≠ TTF_STYLE_UNDERLINE →
        rbgm_ttf_setunderline self v = ⟨Qfalse, self, [.TTF_GetFontStyle]⟩)) := by
  refine ⟨⟨?_, ?_, ?_, ?_⟩, ⟨?_, ?_, ?_, ?_⟩, ⟨?_, ?_, ?_, ?_⟩⟩
  · exact fun i hi => testBit_cases _ _ i hi _ (setbold_style self v)
  · simp only [rbgm_ttf_getitalic, TTF_GetFontStyle, frame_cases _ _ TTF_STYLE_ITALIC (by decide) _ (setbold_style self v)]
  · simp only [rbgm_ttf_getunderline, TTF_GetFontStyle, frame_cases _ _ TTF_STYLE_UNDERLINE (by decide) _ (setbold_style self v)]
  · intro hv hs
    subst hv
    simp [rbgm_ttf_setbold, TTF_GetFontStyle, hs, Qfalse]
  · exact fun i hi => testBit_cases _ _ i hi _ (setitalic_style self v)
  · simp only [rbgm_ttf_getbold, TTF_GetFontStyle, frame_cases _ _ TTF_STYLE_BOLD (by decide) _ (setitalic_style self v)]
  · simp only [rbgm_ttf_getunderline, TTF_GetFontStyle, frame_cases _ _ TTF_STYLE_UNDERLINE (by decide) _ (setitalic_style self v)]
  · intro hv hs
    subst hv
    simp [rbgm_ttf_setitalic, TTF_GetFontStyle, hs, Qfalse]
  · exact fun i hi => testBit_cases _ _ i hi _ (setunderline_style self v)
  · simp only [rbgm_ttf_getbold, TTF_GetFontStyle, frame_cases _ _ TTF_STYLE_BOLD (by decide) _ (setunderline_style self v)]
  · simp only [rbgm_ttf_getitalic, TTF_GetFontStyle, frame_cases _ _ TTF_STYLE_ITALIC (by decide) _ (setunderline_style self v)]
  · intro hv hs
    subst hv
    simp [rbgm_ttf_setunderline, TTF_GetFontStyle, hs, Qfalse]

/-- C10 at a font with no style bit set and the argument `Qfalse`: every
setter returns after `TTF_GetFontStyle` alone and leaves the font as it was. -/
theorem setter_frame_witness :
    rbgm_ttf_setbold ⟨0⟩ Qfalse = ⟨Qfalse, ⟨0⟩, [.TTF_GetFontStyle]⟩ ∧
    rbgm_ttf_setitalic ⟨0⟩ Qfalse = ⟨Qfalse, ⟨0⟩, [.TTF_GetFontStyle]⟩ ∧
    rbgm_ttf_setunderline ⟨0⟩ Qfalse = ⟨Qfalse, ⟨0⟩, [.TTF_GetFontStyle]⟩ :=
  ⟨(setter_frame ⟨0⟩ Qfalse).1.2.2.2 rfl (by decide),
   (setter_frame ⟨0⟩ Qfalse).2.1.2.2.2 rfl (by decide),
   (setter_frame ⟨0⟩ Qfalse).2.2.2.2.2 rfl (by decide)⟩

/-! ## Library lifecycle: claims -/

/-- C9. `rbgm_ttf_quit` returns `Qnil` in every library state; the native
`TTF_Quit` is among its calls exactly when the library is initialised (the
only other call is the query `TTF_WasInit`); the library is uninitialised
afterwards, and a second call returns `Qnil`, leaves that state unchanged and
makes no call but `TTF_WasInit`. -/
theorem quit_idempotent (lib : TTF_State) :
    (rbgm_ttf_quit lib).outcome = .returned Qnil ∧
    (NativeCall.TTF_Quit ∈ (rbgm_ttf_quit lib).calls ↔ lib.initialized = true) ∧
    (rbgm_ttf_quit lib).calls
      = (if lib.initialized then [.TTF_WasInit, .TTF_Quit] else [.TTF_WasInit]) ∧
    (rbgm_ttf_quit lib).lib = ⟨false⟩ ∧
    rbgm_ttf_quit (rbgm_ttf_quit lib).lib
      = ⟨.returned Qnil, (rbgm_ttf_quit lib).lib, [.TTF_WasInit]⟩ := by
  obtain ⟨b⟩ := lib
  cases b <;> decide

/-- C7. `rbgm_ttf_new` on an uninitialised library raises `eSDLError` with the
initialisation message for every argument list, after the single native call
`TTF_WasInit`: `TTF_OpenFont` is not called and no font is returned. On an
initialised library, when the two arguments convert to `file` and `ptsize` and
`TTF_OpenFont file ptsize` is `NULL`, it raises `eSDLError` with the load
message carrying `TTF_GetError()`, and no font is returned. -/
theorem new_requires_init (rb : Ruby) (ttf : SDL_ttf) (lib : TTF_State) (argv : List VALUE) :
    (lib.initialized = false →
      rbgm_ttf_new rb ttf lib argv
        = ⟨.raised .eSDLError "Font module must be initialized before making new font.",
           [.TTF_WasInit]⟩) ∧
    (lib.initialized = true →
      ∀ a0 a1 file ptsize, argv[0]? = some a0 → argv[1]? = some a1 →
        rb.StringValuePtr a0 = .ok file → rb.NUM2INT a1 = .ok ptsize →
        ttf.TTF_OpenFont file ptsize = none →
        rbgm_ttf_new rb ttf lib argv
          = ⟨.raised .eSDLError ("could not load font: " ++ ttf.TTF_GetError),
             [.TTF_WasInit, .TTF_OpenFont file ptsize, .TTF_GetError]⟩) := by
  constructor
  · intro h
    simp [rbgm_ttf_new, h]
  · intro h a0 a1 file ptsize h0 h1 hf hp ho
    simp [rbgm_ttf_new, h, h0, h1, hf, hp, ho]

/-- C7 at the sample environment: `TTF.new("hi", 12)` before setup, and after
setup with a native library that opens no font. -/
theorem new_requires_init_witness :
    rbgm_ttf_new sample_ruby sample_ttf ⟨false⟩ [104, 25]
      = ⟨.raised .eSDLError "Font module must be initialized before making new font.",
         [.TTF_WasInit]⟩ ∧
    rbgm_ttf_new sample_ruby sample_ttf ⟨true⟩ [104, 25]
      = ⟨.raised .eSDLError ("could not load font: " ++ sample_ttf.TTF_GetError),
         [.TTF_WasInit, .TTF_OpenFont "hi" 12, .TTF_GetError]⟩ :=
  ⟨(new_requires_init sample_ruby sample_ttf ⟨false⟩ [104, 25]).1 rfl,
   (new_requires_init sample_ruby sample_ttf ⟨true⟩ [104, 25]).2 rfl 104 25 "hi" 12
     rfl rfl rfl rfl rfl⟩

/-! ## Version: claims -/

/-- C8 (counterexample). In a build with SDL_ttf whose header defines none of
the version macros, `version` returns `[0,0,0]` although the dependency is
present. -/
theorem version_zero_with_dependency :
    ¬ (call_version build_without_version_macros = some [0, 0, 0] ↔
        build_without_version_macros.HAVE_SDL_TTF_H = false) := by
  decide

/-- C8 (amended). Without SDL_ttf the registered `version` returns `[0,0,0]`;
with SDL_ttf it returns the header's three macros, each replaced by `0` when
the header leaves it undefined. So `[0,0,0]` is returned exactly when SDL_ttf
is absent or every macro is undefined or defined as `0`, and a header defining
all three as `M`, `m`, `p` gives `[M, m, p]`. -/
theorem version_triple (b : Build) :
    call_version b
      = some (if b.HAVE_SDL_TTF_H then
                [b.SDL_TTF_MAJOR_VERSION.getD 0, b.SDL_TTF_MINOR_VERSION.getD 0,
                 b.SDL_TTF_PATCHLEVEL.getD 0]
              else [0, 0, 0]) ∧
    (call_version b = some [0, 0, 0] ↔
      (b.HAVE_SDL_TTF_H = false ∨
        (b.SDL_TTF_MAJOR_VERSION.getD 0 = 0 ∧ b.SDL_TTF_MINOR_VERSION.getD 0 = 0 ∧
          b.SDL_TTF_PATCHLEVEL.getD 0 = 0))) ∧
    (∀ M m p : Int, call_version ⟨true, some M, some m, some p⟩ = some [M, m, p]) := by
  have key : ∀ c : Build, call_version c
      = some (if c.HAVE_SDL_TTF_H then
                [c.SDL_TTF_MAJOR_VERSION.getD 0, c.SDL_TTF_MINOR_VERSION.getD 0,
                 c.SDL_TTF_PATCHLEVEL.getD 0]
              else [0, 0, 0]) := by
    intro c
    obtain ⟨h, x, y, z⟩ := c
    cases h <;> rfl
  refine ⟨key b, ?_, fun M m p => by rw [key]; rfl⟩
  rw [key]
  obtain ⟨h, x, y, z⟩ := b
  cases h <;> simp

/-! ## Rendering: claims -/

/-- C6. With fewer than three arguments `rbgm_ttf_render` raises
`ArgumentError` and makes no native call, for every receiver `self` (also one
that `Data_Get_Struct` rejects), every behaviour of the Ruby conversions and
of the native library, and every content of the arguments: the result is a
function of the number of arguments alone, so the receiver and the arguments
are not read before the raise, and two calls with equally many (fewer than
three) arguments end the same way whatever else differs. With three or more
arguments it never raises `ArgumentError`. -/
theorem render_arity (rb : Ruby) (ttf : SDL_ttf) (self : VALUE) (argv : List VALUE) :
    (argv.length < 3 →
      rbgm_ttf_render rb ttf self argv
        = ⟨.raised .rb_eArgError
            ("wrong number of arguments (" ++ toString argv.length ++ " for 3)"), []⟩) ∧
    (argv.length < 3 →
      ∀ (rb2 : Ruby) (ttf2 : SDL_ttf) (self2 : VALUE) (argv2 : List VALUE),
        argv2.length = argv.length →
        rbgm_ttf_render rb2 ttf2 self2 argv2 = rbgm_ttf_render rb ttf self argv) ∧
    (3 ≤ argv.length →
      ∀ message, (rbgm_ttf_render rb ttf self argv).outcome ≠ .raised .rb_eArgError message) := by
  refine ⟨?_, ?_, ?_⟩
  · intro h
    simp [rbgm_ttf_render, h]
  · intro h rb2 ttf2 self2 argv2 hlen
    have h2 : argv2.length < 3 := by rw [hlen]; exact h
    simp [rbgm_ttf_render, h, h2, hlen]
  · intro h message
    have h3 : ¬ argv.length < 3 := Nat.not_lt.mpr h
    unfold rbgm_ttf_render
    simp only [h3, if_false]
    split
    · simp
    · split
      · simp
      · split
        · simp
        · split
          · simp
          · split <;> simp

/-- C6 at the sample environment: the argument list `["hi", false]` on the
receiver `nil`, out of which no font can be read, and on a `TTF` object; a
one-element list of an unconvertible argument on `nil`; and the list
`["hi", false, [0,0,0]]` on a `TTF` object and on `nil`. -/
theorem render_arity_witness :
    sample_ruby.Data_Get_Struct Qnil = .error "TypeError" ∧
    rbgm_ttf_render sample_ruby sample_ttf Qnil [104, Qfalse]
      = ⟨.raised .rb_eArgError
          ("wrong number of arguments (" ++ toString [104, Qfalse].length ++ " for 3)"), []⟩ ∧
    rbgm_ttf_render sample_ruby sample_ttf 300 [104, Qfalse]
      = rbgm_ttf_render sample_ruby sample_ttf Qnil [Qnil, Qnil] ∧
    rbgm_ttf_render sample_ruby sample_ttf Qnil [Qnil]
      = ⟨.raised .rb_eArgError
          ("wrong number of arguments (" ++ toString [Qnil].length ++ " for 3)"), []⟩ ∧
    (∀ message, (rbgm_ttf_render sample_ruby sample_ttf 300 [104, Qfalse, 200]).outcome
      ≠ .raised .rb_eArgError message) ∧
    (∀ message, (rbgm_ttf_render sample_ruby sample_ttf Qnil [104, Qfalse, 200]).outcome
      ≠ .raised .rb_eArgError message) :=
  ⟨rfl,
   (render_arity sample_ruby sample_ttf Qnil [104, Qfalse]).1 (by decide),
   (render_arity sample_ruby sample_ttf Qnil [Qnil, Qnil]).2.1 (by decide)
     sample_ruby sample_ttf 300 [104, Qfalse] rfl,
   (render_arity sample_ruby sample_ttf Qnil [Qnil]).1 (by decide),
   (render_arity sample_ruby sample_ttf 300 [104, Qfalse, 200]).2.2 (by decide),
   (render_arity sample_ruby sample_ttf Qnil [104, Qfalse, 200]).2.2 (by decide)⟩

/-- C5. The policy matrix of `rbgm_ttf_render` on a receiver wrapping the font
`font` and an argument list `t, aa, fg, rest...` whose text and foreground
convert to `text` and `fore`, when the native render returns a surface `surf`:
`aa = Qtrue`, no 4th argument: the only native call is the blended render;
`aa = Qtrue`, 4th argument converting to `back`: only the shaded render;
`aa = Qfalse`, no 4th argument: only the solid render;
`aa = Qfalse`, 4th argument converting to `back`: the solid render, then
`SDL_SetColors(surf, [back], 0, 1)`, then `SDL_SetColorKey(surf, 0, 0)`, and the
returned surface is `surf` with palette entry `0` replaced by `back` and no
colour key. In the first three cases `surf` is returned as it is. -/
theorem render_policy (rb : Ruby) (ttf : SDL_ttf) (self : VALUE) (font : TTF_Font)
    (t aa fg : VALUE) (rest : List VALUE) (text : String) (fore : SDL_Color)
    (hself : rb.Data_Get_Struct self = .ok font)
    (htext : rb.StringValuePtr t = .ok text) (hfore : read_color rb fg = .ok fore) :
    (aa = Qtrue → rest = [] →
      ∀ surf, ttf.TTF_RenderText_Blended font text fore = some surf →
        rbgm_ttf_render rb ttf self (t :: aa :: fg :: rest)
          = ⟨.returned surf, [.TTF_RenderText_Blended text fore]⟩) ∧
    (aa = Qtrue → ∀ bg more back surf, rest = bg :: more → read_color rb bg = .ok back →
      ttf.TTF_RenderText_Shaded font text fore back = some surf →
        rbgm_ttf_render rb ttf self (t :: aa :: fg :: rest)
          = ⟨.returned surf, [.TTF_RenderText_Shaded text fore back]⟩) ∧
    (aa = Qfalse → rest = [] →
      ∀ surf, ttf.TTF_RenderText_Solid font text fore = some surf →
        rbgm_ttf_render rb ttf self (t :: aa :: fg :: rest)
          = ⟨.returned surf, [.TTF_RenderText_Solid text fore]⟩) ∧
    (aa = Qfalse → ∀ bg more back surf, rest = bg :: more → read_color rb bg = .ok back →
      ttf.TTF_RenderText_Solid font text fore = some surf →
        rbgm_ttf_render rb ttf self (t :: aa :: fg :: rest)
          = ⟨.returned { palette := surf.palette.set 0 back, colorkey := none },
             [.TTF_RenderText_Solid text fore,
              .SDL_SetColors (some surf) [back] 0 1,
              .SDL_SetColorKey (some { surf with palette := surf.palette.set 0 back }) 0 0]⟩) := by
  refine ⟨?_, ?_, ?_, ?_⟩
  · intro haa hrest surf hs
    subst haa hrest
    simp [rbgm_ttf_render, render_native, hself, htext, hfore, hs, Qtrue, List.getD]
  · intro haa bg more back surf hrest hback hs
    subst haa hrest
    simp [rbgm_ttf_render, render_native, hself, htext, hfore, hback, hs, Qtrue, List.getD]
  · intro haa hrest surf hs
    subst haa hrest
    simp [rbgm_ttf_render, render_native, hself, htext, hfore, hs, Qfalse, List.getD]
  · intro haa bg more back surf hrest hback hs
    subst haa hrest
    simp [rbgm_ttf_render, render_native, hself, htext, hfore, hback, hs, Qfalse, List.getD,
      SDL_SetColors, SDL_SetColorKey, SDL_SRCCOLORKEY, List.enum, List.enumFrom]

/-- C5 at the sample environment, on a `TTF` object, text `"hi"`, foreground
white, background (when given) red, in the four cases of the matrix. -/
theorem render_policy_witness :
    rbgm_ttf_render sample_ruby sample_ttf 300 [104, Qtrue, 204]
      = ⟨.returned ⟨[], none⟩, [.TTF_RenderText_Blended "hi" ⟨255, 255, 255⟩]⟩ ∧
    rbgm_ttf_render sample_ruby sample_ttf 300 [104, Qtrue, 204, 208]
      = ⟨.returned ⟨[⟨255, 0, 0⟩, ⟨255, 255, 255⟩], none⟩,
         [.TTF_RenderText_Shaded "hi" ⟨255, 255, 255⟩ ⟨255, 0, 0⟩]⟩ ∧
    rbgm_ttf_render sample_ruby sample_ttf 300 [104, Qfalse, 204]
      = ⟨.returned ⟨[⟨0, 0, 0⟩, ⟨255, 255, 255⟩], some 0⟩,
         [.TTF_RenderText_Solid "hi" ⟨255, 255, 255⟩]⟩ ∧
    rbgm_ttf_render sample_ruby sample_ttf 300 [104, Qfalse, 204, 208]
      = ⟨.returned ⟨[⟨255, 0, 0⟩, ⟨255, 255, 255⟩], none⟩,
         [.TTF_RenderText_Solid "hi" ⟨255, 255, 255⟩,
          .SDL_SetColors (some ⟨[⟨0, 0, 0⟩, ⟨255, 255, 255⟩], some 0⟩) [⟨255, 0, 0⟩] 0 1,
          .SDL_SetColorKey (some ⟨[⟨255, 0, 0⟩, ⟨255, 255, 255⟩], some 0⟩) 0 0]⟩ :=
  ⟨(render_policy sample_ruby sample_ttf 300 ⟨0⟩ 104 Qtrue 204 [] "hi" ⟨255, 255, 255⟩
      rfl rfl rfl).1 rfl rfl _ rfl,
   (render_policy sample_ruby sample_ttf 300 ⟨0⟩ 104 Qtrue 204 [208] "hi" ⟨255, 255, 255⟩
      rfl rfl rfl).2.1 rfl 208 [] ⟨255, 0, 0⟩ _ rfl rfl rfl,
   (render_policy sample_ruby sample_ttf 300 ⟨0⟩ 104 Qfalse 204 [] "hi" ⟨255, 255, 255⟩
      rfl rfl rfl).2.2.1 rfl rfl _ rfl,
   (render_policy sample_ruby sample_ttf 300 ⟨0⟩ 104 Qfalse 204 [208] "hi" ⟨255, 255, 255⟩
      rfl rfl rfl).2.2.2 rfl 208 [] ⟨255, 0, 0⟩ _ rfl rfl rfl⟩

/-- C4 (evaluation at the failing input). `render("", false, [255,255,255],
[255,0,0])` on a `TTF` object for whose font the native solid render returns
`NULL`: before
the render error is raised, `SDL_SetColors` and `SDL_SetColorKey` are both
called on the `NULL` surface. -/
theorem render_null_surface_is_used :
    sample_ruby.Data_Get_Struct 300 = .ok ⟨0⟩ ∧
    sample_ttf.TTF_RenderText_Solid ⟨0⟩ "" ⟨255, 255, 255⟩ = none ∧
    rbgm_ttf_render sample_ruby sample_ttf 300 [100, Qfalse, 204, 208]
      = ⟨.raised .eSDLError "could not render font object: native failure",
         [.TTF_RenderText_Solid "" ⟨255, 255, 255⟩,
          .SDL_SetColors none [⟨255, 0, 0⟩] 0 1,
          .SDL_SetColorKey none 0 0,
          .TTF_GetError]⟩ := by
  exact ⟨rfl, by decide, by decide⟩

end Rubygame
